import Mathlib

/-!
# Verification of `norse/torch/functional/coba_lif.py`

Shallow embedding of the conductance-based LIF neuron step functions
(`coba_lif_step` and `coba_lif_feed_forward_step`) over exact rational
arithmetic.  Tensors are modelled as vectors `Fin n → ℚ`, weight matrices
as `Fin m → Fin n → ℚ`, and `torch.nn.functional.linear(x, W)` as the
matrix-vector product `fun i => ∑ j, W i j * x j`.
-/

open Finset

/-- State of a conductance based LIF neuron (class `CobaLIFState`):
recurrent spikes `z`, membrane potential `v`, excitatory conductance `g_e`,
inhibitory conductance `g_i`; one entry per neuron. -/
structure CobaLIFState (m : ℕ) where
  z : Fin m → ℚ
  v : Fin m → ℚ
  g_e : Fin m → ℚ
  g_i : Fin m → ℚ

/-- Parameters of a conductance based LIF neuron (class `CobaLIFParameters`). -/
structure CobaLIFParameters where
  tau_syn_exc_inv : ℚ
  tau_syn_inh_inv : ℚ
  c_m_inv : ℚ
  g_l : ℚ
  e_rev_I : ℚ
  e_rev_E : ℚ
  v_rest : ℚ
  v_reset : ℚ
  v_thresh : ℚ
  method : String
  alpha : ℚ

/-- The default `CobaLIFParameters` values from the source:
`tau_syn_exc_inv = 1/5`, `tau_syn_inh_inv = 1/5`, `c_m_inv = 1/0.2`,
`g_l = 1/20 * 1/0.2`, `e_rev_I = -100`, `e_rev_E = 60`, `v_rest = -20`,
`v_reset = -70`, `v_thresh = -10`, `method = "heaviside"`, `alpha = 0.0`. -/
def CobaLIFParameters.default : CobaLIFParameters :=
  ⟨1/5, 1/5, 1/(0.2 : ℚ), 1/20 * (1/(0.2 : ℚ)), -100, 60, -20, -70, -10,
   "heaviside", 0⟩

/-- `torch.nn.functional.relu`, elementwise on scalars: `max x 0`. -/
def relu (x : ℚ) : ℚ := max x 0

/-- `torch.nn.functional.linear(x, W) = x Wᵀ`: row `i` is `∑ j, W i j * x j`. -/
def linear {n m : ℕ} (x : Fin n → ℚ) (W : Fin m → Fin n → ℚ) : Fin m → ℚ :=
  fun i => ∑ j, W i j * x j

/-- Modelled from the spec: the external `threshold` function
(`norse.torch.functional.threshold`, imported by `coba_lif.py` but not part
of this repository slice).  Per spec §4.3 its forward value is elementwise
`1` where `x ≥ 0` and `0` otherwise; `method` and `alpha` shape only the
backward surrogate gradient and do not affect the forward value. -/
def threshold (x : ℚ) (method : String) (alpha : ℚ) : ℚ :=
  if 0 ≤ x then 1 else 0

section RecurrentStep

variable {n m : ℕ}

/-- The excitatory conductance computed by `coba_lif_step` after decay,
feed-forward drive and recurrent drive (source lines 77-90):
`g_e = (state.g_e + (-dt * tau_syn_exc_inv * state.g_e))
       + linear(input, relu(input_weights)) + linear(state.z, relu(recurrent_weights))`. -/
def coba_lif_g_e (input_tensor : Fin n → ℚ) (state : CobaLIFState m)
    (input_weights : Fin m → Fin n → ℚ) (recurrent_weights : Fin m → Fin m → ℚ)
    (p : CobaLIFParameters) (dt : ℚ) : Fin m → ℚ :=
  fun i =>
    (state.g_e i + (-dt * p.tau_syn_exc_inv * state.g_e i))
      + linear input_tensor (fun a b => relu (input_weights a b)) i
      + linear state.z (fun a b => relu (recurrent_weights a b)) i

/-- The inhibitory conductance computed by `coba_lif_step` (source lines
79-94): decay, then `linear(input, relu(-input_weights))`, then
`linear(state.z, relu(-recurrent_weights))`. -/
def coba_lif_g_i (input_tensor : Fin n → ℚ) (state : CobaLIFState m)
    (input_weights : Fin m → Fin n → ℚ) (recurrent_weights : Fin m → Fin m → ℚ)
    (p : CobaLIFParameters) (dt : ℚ) : Fin m → ℚ :=
  fun i =>
    (state.g_i i + (-dt * p.tau_syn_inh_inv * state.g_i i))
      + linear input_tensor (fun a b => relu (-input_weights a b)) i
      + linear state.z (fun a b => relu (-recurrent_weights a b)) i

/-- The pre-reset membrane potential of `coba_lif_step` (source lines
96-105): `v = state.v + dt * c_m_inv * (g_l*(v_rest - state.v)
+ g_e*(e_rev_E - state.v) + g_i*(e_rev_I - state.v))`, with the
already-updated conductances. -/
def coba_lif_v_decayed (input_tensor : Fin n → ℚ) (state : CobaLIFState m)
    (input_weights : Fin m → Fin n → ℚ) (recurrent_weights : Fin m → Fin m → ℚ)
    (p : CobaLIFParameters) (dt : ℚ) : Fin m → ℚ :=
  fun i =>
    state.v i
      + dt * p.c_m_inv *
        (p.g_l * (p.v_rest - state.v i)
          + coba_lif_g_e input_tensor state input_weights recurrent_weights p dt i
              * (p.e_rev_E - state.v i)
          + coba_lif_g_i input_tensor state input_weights recurrent_weights p dt i
              * (p.e_rev_I - state.v i))

/-- The spike output of `coba_lif_step` (source line 107):
`z_new = threshold(v - v_thresh, method, alpha)`. -/
def coba_lif_z_new (input_tensor : Fin n → ℚ) (state : CobaLIFState m)
    (input_weights : Fin m → Fin n → ℚ) (recurrent_weights : Fin m → Fin m → ℚ)
    (p : CobaLIFParameters) (dt : ℚ) : Fin m → ℚ :=
  fun i =>
    threshold
      (coba_lif_v_decayed input_tensor state input_weights recurrent_weights p dt i
        - p.v_thresh) p.method p.alpha

/-- The post-reset membrane potential of `coba_lif_step` (source line 108):
`v = (1 - z_new) * v + z_new * v_reset`. -/
def coba_lif_v_new (input_tensor : Fin n → ℚ) (state : CobaLIFState m)
    (input_weights : Fin m → Fin n → ℚ) (recurrent_weights : Fin m → Fin m → ℚ)
    (p : CobaLIFParameters) (dt : ℚ) : Fin m → ℚ :=
  fun i =>
    (1 - coba_lif_z_new input_tensor state input_weights recurrent_weights p dt i)
        * coba_lif_v_decayed input_tensor state input_weights recurrent_weights p dt i
      + coba_lif_z_new input_tensor state input_weights recurrent_weights p dt i
        * p.v_reset

/-- Euler integration step for a conductance based LIF neuron
(`coba_lif_step`, source lines 57-109): returns `(z_new,
CobaLIFState(z_new, v, g_e, g_i))`. -/
def coba_lif_step (input_tensor : Fin n → ℚ) (state : CobaLIFState m)
    (input_weights : Fin m → Fin n → ℚ) (recurrent_weights : Fin m → Fin m → ℚ)
    (p : CobaLIFParameters) (dt : ℚ) : (Fin m → ℚ) × CobaLIFState m :=
  (coba_lif_z_new input_tensor state input_weights recurrent_weights p dt,
   ⟨coba_lif_z_new input_tensor state input_weights recurrent_weights p dt,
    coba_lif_v_new input_tensor state input_weights recurrent_weights p dt,
    coba_lif_g_e input_tensor state input_weights recurrent_weights p dt,
    coba_lif_g_i input_tensor state input_weights recurrent_weights p dt⟩)

end RecurrentStep

/-- State of a conductance based feed forward LIF neuron
(class `CobaLIFFeedForwardState`): membrane potential `v` and the two
conductances only. -/
structure CobaLIFFeedForwardState (m : ℕ) where
  v : Fin m → ℚ
  g_e : Fin m → ℚ
  g_i : Fin m → ℚ

section FeedForwardStep

variable {m : ℕ}

/-- Excitatory conductance of `coba_lif_feed_forward_step` (source lines
140-145): decay then `g_e += relu(input_tensor)`. -/
def coba_lif_ff_g_e (input_tensor : Fin m → ℚ) (state : CobaLIFFeedForwardState m)
    (p : CobaLIFParameters) (dt : ℚ) : Fin m → ℚ :=
  fun i =>
    (state.g_e i + (-dt * p.tau_syn_exc_inv * state.g_e i)) + relu (input_tensor i)

/-- Inhibitory conductance of `coba_lif_feed_forward_step` (source lines
142-146): decay then `g_i += relu(-input_tensor)`. -/
def coba_lif_ff_g_i (input_tensor : Fin m → ℚ) (state : CobaLIFFeedForwardState m)
    (p : CobaLIFParameters) (dt : ℚ) : Fin m → ℚ :=
  fun i =>
    (state.g_i i + (-dt * p.tau_syn_inh_inv * state.g_i i)) + relu (-input_tensor i)

/-- Pre-reset membrane potential of `coba_lif_feed_forward_step`
(source lines 148-157). -/
def coba_lif_ff_v_decayed (input_tensor : Fin m → ℚ)
    (state : CobaLIFFeedForwardState m) (p : CobaLIFParameters) (dt : ℚ) :
    Fin m → ℚ :=
  fun i =>
    state.v i
      + dt * p.c_m_inv *
        (p.g_l * (p.v_rest - state.v i)
          + coba_lif_ff_g_e input_tensor state p dt i * (p.e_rev_E - state.v i)
          + coba_lif_ff_g_i input_tensor state p dt i * (p.e_rev_I - state.v i))

/-- Spike output of `coba_lif_feed_forward_step` (source line 159). -/
def coba_lif_ff_z_new (input_tensor : Fin m → ℚ)
    (state : CobaLIFFeedForwardState m) (p : CobaLIFParameters) (dt : ℚ) :
    Fin m → ℚ :=
  fun i =>
    threshold (coba_lif_ff_v_decayed input_tensor state p dt i - p.v_thresh)
      p.method p.alpha

/-- Post-reset membrane potential of `coba_lif_feed_forward_step`
(source line 160). -/
def coba_lif_ff_v_new (input_tensor : Fin m → ℚ)
    (state : CobaLIFFeedForwardState m) (p : CobaLIFParameters) (dt : ℚ) :
    Fin m → ℚ :=
  fun i =>
    (1 - coba_lif_ff_z_new input_tensor state p dt i)
        * coba_lif_ff_v_decayed input_tensor state p dt i
      + coba_lif_ff_z_new input_tensor state p dt i * p.v_reset

/-- Euler integration step for a conductance based feed forward LIF neuron
(`coba_lif_feed_forward_step`, source lines 126-161). -/
def coba_lif_feed_forward_step (input_tensor : Fin m → ℚ)
    (state : CobaLIFFeedForwardState m) (p : CobaLIFParameters) (dt : ℚ) :
    (Fin m → ℚ) × CobaLIFFeedForwardState m :=
  (coba_lif_ff_z_new input_tensor state p dt,
   ⟨coba_lif_ff_v_new input_tensor state p dt,
    coba_lif_ff_g_e input_tensor state p dt,
    coba_lif_ff_g_i input_tensor state p dt⟩)

end FeedForwardStep

/-! ## Claim theorems -/

/-- C8: the default `CobaLIFParameters` constants model the stated
biologically plausible regime: `v_reset < v_rest`, `v_thresh > v_rest`,
`e_rev_E > v_rest`, `e_rev_I < v_rest`, and `g_l > 0`. -/
theorem coba_lif_default_parameters_regime :
    CobaLIFParameters.default.v_reset < CobaLIFParameters.default.v_rest ∧
    CobaLIFParameters.default.v_rest < CobaLIFParameters.default.v_thresh ∧
    CobaLIFParameters.default.v_rest < CobaLIFParameters.default.e_rev_E ∧
    CobaLIFParameters.default.e_rev_I < CobaLIFParameters.default.v_rest ∧
    0 < CobaLIFParameters.default.g_l := by
  norm_num [CobaLIFParameters.default]

/-- C7: with `dt = 0.001`, the default parameters (`tau_syn_exc_inv = 0.2`),
zero initial conductances and a single input spike of value `1`, one
feed-forward step returns `g_e = 1` exactly (same-step input is not
attenuated by decay) and `g_i = 0`. -/
theorem coba_lif_ff_numeric_scenario :
    (coba_lif_feed_forward_step (fun _ : Fin 1 => 1)
        (⟨fun _ => -20, fun _ => 0, fun _ => 0⟩ : CobaLIFFeedForwardState 1) CobaLIFParameters.default
        (1/1000)).2.g_e 0 = 1 ∧
    (coba_lif_feed_forward_step (fun _ : Fin 1 => 1)
        (⟨fun _ => -20, fun _ => 0, fun _ => 0⟩ : CobaLIFFeedForwardState 1) CobaLIFParameters.default
        (1/1000)).2.g_i 0 = 0 ∧
    CobaLIFParameters.default.tau_syn_exc_inv = 1/5 := by
  refine ⟨?_, ?_, ?_⟩ <;>
    norm_num [coba_lif_feed_forward_step, coba_lif_ff_g_e, coba_lif_ff_g_i,
      relu, CobaLIFParameters.default]

/-- C2: in both the recurrent and the feed-forward step the reset is the
convex combination `v = (1 - z_new) * v + z_new * v_reset`; wherever
`z_new = 1` the returned voltage is exactly `v_reset`, and wherever
`z_new = 0` it is exactly the Euler-updated voltage. -/
theorem coba_lif_reset_exactness {n m : ℕ} (input : Fin n → ℚ)
    (s : CobaLIFState m) (wi : Fin m → Fin n → ℚ) (wr : Fin m → Fin m → ℚ)
    (x : Fin m → ℚ) (t : CobaLIFFeedForwardState m)
    (p : CobaLIFParameters) (dt : ℚ) (i : Fin m) :
    ((coba_lif_step input s wi wr p dt).2.v i =
      (1 - (coba_lif_step input s wi wr p dt).1 i) *
          coba_lif_v_decayed input s wi wr p dt i
        + (coba_lif_step input s wi wr p dt).1 i * p.v_reset) ∧
    ((coba_lif_step input s wi wr p dt).1 i = 1 →
      (coba_lif_step input s wi wr p dt).2.v i = p.v_reset) ∧
    ((coba_lif_step input s wi wr p dt).1 i = 0 →
      (coba_lif_step input s wi wr p dt).2.v i =
        coba_lif_v_decayed input s wi wr p dt i) ∧
    ((coba_lif_feed_forward_step x t p dt).2.v i =
      (1 - (coba_lif_feed_forward_step x t p dt).1 i) *
          coba_lif_ff_v_decayed x t p dt i
        + (coba_lif_feed_forward_step x t p dt).1 i * p.v_reset) ∧
    ((coba_lif_feed_forward_step x t p dt).1 i = 1 →
      (coba_lif_feed_forward_step x t p dt).2.v i = p.v_reset) ∧
    ((coba_lif_feed_forward_step x t p dt).1 i = 0 →
      (coba_lif_feed_forward_step x t p dt).2.v i =
        coba_lif_ff_v_decayed x t p dt i) := by
  refine ⟨rfl, fun h => ?_, fun h => ?_, rfl, fun h => ?_, fun h => ?_⟩ <;>
    simp only [coba_lif_step, coba_lif_feed_forward_step] at h ⊢ <;>
    simp only [coba_lif_v_new, coba_lif_ff_v_new, h] <;> ring

/-- Witness for C2 at concrete inputs: with the default parameters and a
starting voltage of `100` the step spikes (`z_new = 1`) and the returned
voltage is exactly `v_reset`; with a starting voltage of `-20` it does not
spike and the returned voltage is the Euler-updated one. -/
theorem coba_lif_reset_exactness_witness :
    ((coba_lif_step (fun _ : Fin 1 => 0)
        (⟨fun _ => 0, fun _ => 100, fun _ => 0, fun _ => 0⟩ : CobaLIFState 1)
        (fun _ _ => 0) (fun _ _ => 0) CobaLIFParameters.default (1/1000)).1 0 = 1 ∧
      (coba_lif_step (fun _ : Fin 1 => 0)
        (⟨fun _ => 0, fun _ => 100, fun _ => 0, fun _ => 0⟩ : CobaLIFState 1)
        (fun _ _ => 0) (fun _ _ => 0) CobaLIFParameters.default (1/1000)).2.v 0 =
        CobaLIFParameters.default.v_reset) ∧
    ((coba_lif_feed_forward_step (fun _ : Fin 1 => 0)
        (⟨fun _ => -20, fun _ => 0, fun _ => 0⟩ : CobaLIFFeedForwardState 1)
        CobaLIFParameters.default (1/1000)).1 0 = 0 ∧
      (coba_lif_feed_forward_step (fun _ : Fin 1 => 0)
        (⟨fun _ => -20, fun _ => 0, fun _ => 0⟩ : CobaLIFFeedForwardState 1)
        CobaLIFParameters.default (1/1000)).2.v 0 =
        coba_lif_ff_v_decayed (fun _ : Fin 1 => 0)
          (⟨fun _ => -20, fun _ => 0, fun _ => 0⟩ : CobaLIFFeedForwardState 1)
          CobaLIFParameters.default (1/1000) 0) := by
  have h1 : (coba_lif_step (fun _ : Fin 1 => 0)
      (⟨fun _ => 0, fun _ => 100, fun _ => 0, fun _ => 0⟩ : CobaLIFState 1)
      (fun _ _ => 0) (fun _ _ => 0) CobaLIFParameters.default (1/1000)).1 0 = 1 := by
    norm_num [coba_lif_step, coba_lif_z_new, coba_lif_v_decayed, coba_lif_g_e,
      coba_lif_g_i, linear, relu, threshold, Fin.sum_univ_one,
      CobaLIFParameters.default]
  have h2 : (coba_lif_feed_forward_step (fun _ : Fin 1 => 0)
      (⟨fun _ => -20, fun _ => 0, fun _ => 0⟩ : CobaLIFFeedForwardState 1)
      CobaLIFParameters.default (1/1000)).1 0 = 0 := by
    norm_num [coba_lif_feed_forward_step, coba_lif_ff_z_new,
      coba_lif_ff_v_decayed, coba_lif_ff_g_e, coba_lif_ff_g_i, relu, threshold,
      CobaLIFParameters.default]
  exact ⟨⟨h1, (coba_lif_reset_exactness (fun _ : Fin 1 => 0)
      (⟨fun _ => 0, fun _ => 100, fun _ => 0, fun _ => 0⟩ : CobaLIFState 1)
      (fun _ _ => 0) (fun _ _ => 0) (fun _ => 0)
      (⟨fun _ => -20, fun _ => 0, fun _ => 0⟩ : CobaLIFFeedForwardState 1)
      CobaLIFParameters.default (1/1000) 0).2.1 h1⟩,
    ⟨h2, (coba_lif_reset_exactness (fun _ : Fin 1 => 0)
      (⟨fun _ => 0, fun _ => 100, fun _ => 0, fun _ => 0⟩ : CobaLIFState 1)
      (fun _ _ => 0) (fun _ _ => 0) (fun _ => 0)
      (⟨fun _ => -20, fun _ => 0, fun _ => 0⟩ : CobaLIFFeedForwardState 1)
      CobaLIFParameters.default (1/1000) 0).2.2.2.2.2 h2⟩⟩

/-- C6: in either step, wherever the Euler-updated voltage satisfies
`v - v_thresh = 0` exactly, the emitted spike is `1` (the threshold is a
non-strict inequality). -/
theorem coba_lif_threshold_boundary {n m : ℕ} (input : Fin n → ℚ)
    (s : CobaLIFState m) (wi : Fin m → Fin n → ℚ) (wr : Fin m → Fin m → ℚ)
    (x : Fin m → ℚ) (t : CobaLIFFeedForwardState m)
    (p : CobaLIFParameters) (dt : ℚ) (i : Fin m) :
    (coba_lif_v_decayed input s wi wr p dt i - p.v_thresh = 0 →
      (coba_lif_step input s wi wr p dt).1 i = 1) ∧
    (coba_lif_ff_v_decayed x t p dt i - p.v_thresh = 0 →
      (coba_lif_feed_forward_step x t p dt).1 i = 1) := by
  constructor <;> intro h
  · simp [coba_lif_step, coba_lif_z_new, threshold, h]
  · simp [coba_lif_feed_forward_step, coba_lif_ff_z_new, threshold, h]

/-- Witness for C6: with `c_m_inv = 0` the voltage is unchanged, so a state
resting exactly at `v_thresh = 5` satisfies `v - v_thresh = 0` and both
steps emit a spike of exactly `1`. -/
theorem coba_lif_threshold_boundary_witness :
    (coba_lif_v_decayed (fun _ : Fin 1 => 0)
        (⟨fun _ => 0, fun _ => 5, fun _ => 0, fun _ => 0⟩ : CobaLIFState 1) (fun _ _ => 0)
        (fun _ _ => 0) ⟨0, 0, 0, 0, 0, 0, 0, 0, 5, "heaviside", 0⟩ 1 0 -
      (5 : ℚ) = 0 ∧
      (coba_lif_step (fun _ : Fin 1 => 0)
        (⟨fun _ => 0, fun _ => 5, fun _ => 0, fun _ => 0⟩ : CobaLIFState 1) (fun _ _ => 0)
        (fun _ _ => 0) ⟨0, 0, 0, 0, 0, 0, 0, 0, 5, "heaviside", 0⟩ 1).1 0 = 1) ∧
    (coba_lif_ff_v_decayed (fun _ : Fin 1 => 0)
        (⟨fun _ => 5, fun _ => 0, fun _ => 0⟩ : CobaLIFFeedForwardState 1)
        ⟨0, 0, 0, 0, 0, 0, 0, 0, 5, "heaviside", 0⟩ 1 0 - (5 : ℚ) = 0 ∧
      (coba_lif_feed_forward_step (fun _ : Fin 1 => 0)
        (⟨fun _ => 5, fun _ => 0, fun _ => 0⟩ : CobaLIFFeedForwardState 1)
        ⟨0, 0, 0, 0, 0, 0, 0, 0, 5, "heaviside", 0⟩ 1).1 0 = 1) := by
  have h1 : coba_lif_v_decayed (fun _ : Fin 1 => 0)
      (⟨fun _ => 0, fun _ => 5, fun _ => 0, fun _ => 0⟩ : CobaLIFState 1) (fun _ _ => 0)
      (fun _ _ => 0) ⟨0, 0, 0, 0, 0, 0, 0, 0, 5, "heaviside", 0⟩ 1 0 -
      (⟨0, 0, 0, 0, 0, 0, 0, 0, 5, "heaviside", 0⟩ : CobaLIFParameters).v_thresh
      = 0 := by
    norm_num [coba_lif_v_decayed, coba_lif_g_e, coba_lif_g_i, linear, relu,
      Fin.sum_univ_one]
  have h2 : coba_lif_ff_v_decayed (fun _ : Fin 1 => 0)
      (⟨fun _ => 5, fun _ => 0, fun _ => 0⟩ : CobaLIFFeedForwardState 1)
      ⟨0, 0, 0, 0, 0, 0, 0, 0, 5, "heaviside", 0⟩ 1 0 -
      (⟨0, 0, 0, 0, 0, 0, 0, 0, 5, "heaviside", 0⟩ : CobaLIFParameters).v_thresh
      = 0 := by
    norm_num [coba_lif_ff_v_decayed, coba_lif_ff_g_e, coba_lif_ff_g_i, relu]
  exact ⟨⟨h1, (coba_lif_threshold_boundary (fun _ : Fin 1 => 0)
      (⟨fun _ => 0, fun _ => 5, fun _ => 0, fun _ => 0⟩ : CobaLIFState 1) (fun _ _ => 0)
      (fun _ _ => 0) (fun _ => 0) (⟨fun _ => 5, fun _ => 0, fun _ => 0⟩ : CobaLIFFeedForwardState 1)
      ⟨0, 0, 0, 0, 0, 0, 0, 0, 5, "heaviside", 0⟩ 1 0).1 h1⟩,
    ⟨h2, (coba_lif_threshold_boundary (fun _ : Fin 1 => 0)
      (⟨fun _ => 0, fun _ => 5, fun _ => 0, fun _ => 0⟩ : CobaLIFState 1) (fun _ _ => 0)
      (fun _ _ => 0) (fun _ => 0) (⟨fun _ => 5, fun _ => 0, fun _ => 0⟩ : CobaLIFFeedForwardState 1)
      ⟨0, 0, 0, 0, 0, 0, 0, 0, 5, "heaviside", 0⟩ 1 0).2 h2⟩⟩

/-- C4: with all weights zero and an all-zero input, one step (recurrent or
feed-forward) maps each conductance to `g * (1 - dt * tau_inv)`; when
`0 < dt * tau_inv < 1` this is a strict geometric decay toward zero
(magnitude strictly shrinks) for every nonzero conductance. -/
theorem coba_lif_decay_only {n m : ℕ} (s : CobaLIFState m)
    (t : CobaLIFFeedForwardState m) (p : CobaLIFParameters) (dt : ℚ)
    (i : Fin m) :
    ((coba_lif_step (fun _ : Fin n => 0) s (fun _ _ => 0) (fun _ _ => 0)
        p dt).2.g_e i = s.g_e i * (1 - dt * p.tau_syn_exc_inv)) ∧
    ((coba_lif_step (fun _ : Fin n => 0) s (fun _ _ => 0) (fun _ _ => 0)
        p dt).2.g_i i = s.g_i i * (1 - dt * p.tau_syn_inh_inv)) ∧
    ((coba_lif_feed_forward_step (fun _ => 0) t p dt).2.g_e i =
      t.g_e i * (1 - dt * p.tau_syn_exc_inv)) ∧
    ((coba_lif_feed_forward_step (fun _ => 0) t p dt).2.g_i i =
      t.g_i i * (1 - dt * p.tau_syn_inh_inv)) ∧
    (0 < dt * p.tau_syn_exc_inv → dt * p.tau_syn_exc_inv < 1 →
      s.g_e i ≠ 0 →
      |s.g_e i * (1 - dt * p.tau_syn_exc_inv)| < |s.g_e i|) ∧
    (0 < dt * p.tau_syn_inh_inv → dt * p.tau_syn_inh_inv < 1 →
      s.g_i i ≠ 0 →
      |s.g_i i * (1 - dt * p.tau_syn_inh_inv)| < |s.g_i i|) := by
  refine ⟨?_, ?_, ?_, ?_, ?_, ?_⟩
  · simp only [coba_lif_step, coba_lif_g_e, linear, relu]
    simp only [max_self, zero_mul, mul_zero, Finset.sum_const_zero]
    ring
  · simp only [coba_lif_step, coba_lif_g_i, linear, relu, neg_zero]
    simp only [max_self, zero_mul, mul_zero, Finset.sum_const_zero]
    ring
  · simp only [coba_lif_feed_forward_step, coba_lif_ff_g_e, relu]
    simp only [max_self, add_zero]
    ring
  · simp only [coba_lif_feed_forward_step, coba_lif_ff_g_i, relu, neg_zero]
    simp only [max_self, add_zero]
    ring
  · intro h0 h1 hg
    have hfac : |1 - dt * p.tau_syn_exc_inv| = 1 - dt * p.tau_syn_exc_inv :=
      abs_of_pos (by linarith)
    rw [abs_mul, hfac]
    have hpos : 0 < |s.g_e i| := abs_pos.mpr hg
    nlinarith
  · intro h0 h1 hg
    have hfac : |1 - dt * p.tau_syn_inh_inv| = 1 - dt * p.tau_syn_inh_inv :=
      abs_of_pos (by linarith)
    rw [abs_mul, hfac]
    have hpos : 0 < |s.g_i i| := abs_pos.mpr hg
    nlinarith

/-- Witness for C4 at concrete inputs: default parameters, `dt = 1/1000`
(`dt * tau_inv = 1/5000 ∈ (0,1)`), conductances `2` and `3`. -/
theorem coba_lif_decay_only_witness :
    0 < (1/1000 : ℚ) * CobaLIFParameters.default.tau_syn_exc_inv ∧
    (1/1000 : ℚ) * CobaLIFParameters.default.tau_syn_exc_inv < 1 ∧
    (2 : ℚ) ≠ 0 ∧
    ((coba_lif_step (fun _ : Fin 1 => 0)
        (⟨fun _ => 0, fun _ => -20, fun _ => 2, fun _ => 3⟩ : CobaLIFState 1)
        (fun _ _ => 0) (fun _ _ => 0) CobaLIFParameters.default
        (1/1000)).2.g_e 0 =
      2 * (1 - (1/1000) * CobaLIFParameters.default.tau_syn_exc_inv)) ∧
    |(2 : ℚ) * (1 - (1/1000) * CobaLIFParameters.default.tau_syn_exc_inv)| <
      |(2 : ℚ)| := by
  have h0 : 0 < (1/1000 : ℚ) * CobaLIFParameters.default.tau_syn_exc_inv := by
    norm_num [CobaLIFParameters.default]
  have h1 : (1/1000 : ℚ) * CobaLIFParameters.default.tau_syn_exc_inv < 1 := by
    norm_num [CobaLIFParameters.default]
  have hc := coba_lif_decay_only (n := 1)
    (⟨fun _ => 0, fun _ => -20, fun _ => 2, fun _ => 3⟩ : CobaLIFState 1)
    (⟨fun _ => -20, fun _ => 2, fun _ => 3⟩ : CobaLIFFeedForwardState 1)
    CobaLIFParameters.default (1/1000) 0
  exact ⟨h0, h1, by norm_num, hc.1, hc.2.2.2.2.1 h0 h1 (by norm_num)⟩

/-- Spec §4.1 steps 1-3, written from the spec's words: decay both
conductances (`g_e -= dt*tau_syn_exc_inv*g_e`), then add the sign-routed
feed-forward drive through `max(w,0)`, then the sign-routed recurrent drive
using the previous state's `z`.  Excitatory channel. -/
def coba_lif_spec_g_e {n m : ℕ} (input_tensor : Fin n → ℚ)
    (state : CobaLIFState m) (input_weights : Fin m → Fin n → ℚ)
    (recurrent_weights : Fin m → Fin m → ℚ) (p : CobaLIFParameters)
    (dt : ℚ) : Fin m → ℚ :=
  fun i =>
    (state.g_e i - dt * p.tau_syn_exc_inv * state.g_e i)
      + (∑ j, max (input_weights i j) 0 * input_tensor j)
      + (∑ j, max (recurrent_weights i j) 0 * state.z j)

/-- Spec §4.1 steps 1-3, inhibitory channel: decay, then the positive part
of the negated weights applied to the input, then to the previous `z`. -/
def coba_lif_spec_g_i {n m : ℕ} (input_tensor : Fin n → ℚ)
    (state : CobaLIFState m) (input_weights : Fin m → Fin n → ℚ)
    (recurrent_weights : Fin m → Fin m → ℚ) (p : CobaLIFParameters)
    (dt : ℚ) : Fin m → ℚ :=
  fun i =>
    (state.g_i i - dt * p.tau_syn_inh_inv * state.g_i i)
      + (∑ j, max (-input_weights i j) 0 * input_tensor j)
      + (∑ j, max (-recurrent_weights i j) 0 * state.z j)

/-- Spec §4.1 step 4: update voltage from the previous `state.v` using the
already-updated conductances,
`v += dt * c_m_inv * (g_l*(v_rest - v) + g_e*(e_rev_E - v) + g_i*(e_rev_I - v))`. -/
def coba_lif_spec_v {n m : ℕ} (input_tensor : Fin n → ℚ)
    (state : CobaLIFState m) (input_weights : Fin m → Fin n → ℚ)
    (recurrent_weights : Fin m → Fin m → ℚ) (p : CobaLIFParameters)
    (dt : ℚ) : Fin m → ℚ :=
  fun i =>
    state.v i
      + dt * p.c_m_inv *
        (p.g_l * (p.v_rest - state.v i)
          + coba_lif_spec_g_e input_tensor state input_weights recurrent_weights
              p dt i * (p.e_rev_E - state.v i)
          + coba_lif_spec_g_i input_tensor state input_weights recurrent_weights
              p dt i * (p.e_rev_I - state.v i))

/-- Spec §4.1 step 5: `z_new = threshold(v - v_thresh, method, alpha)`. -/
def coba_lif_spec_z {n m : ℕ} (input_tensor : Fin n → ℚ)
    (state : CobaLIFState m) (input_weights : Fin m → Fin n → ℚ)
    (recurrent_weights : Fin m → Fin m → ℚ) (p : CobaLIFParameters)
    (dt : ℚ) : Fin m → ℚ :=
  fun i =>
    threshold
      (coba_lif_spec_v input_tensor state input_weights recurrent_weights p dt i
        - p.v_thresh) p.method p.alpha

/-- Spec §4.1 step 6: the reset `v = (1 - z_new)*v + z_new*v_reset`. -/
def coba_lif_spec_v_reset {n m : ℕ} (input_tensor : Fin n → ℚ)
    (state : CobaLIFState m) (input_weights : Fin m → Fin n → ℚ)
    (recurrent_weights : Fin m → Fin m → ℚ) (p : CobaLIFParameters)
    (dt : ℚ) : Fin m → ℚ :=
  fun i =>
    (1 - coba_lif_spec_z input_tensor state input_weights recurrent_weights p dt i)
        * coba_lif_spec_v input_tensor state input_weights recurrent_weights p dt i
      + coba_lif_spec_z input_tensor state input_weights recurrent_weights p dt i
        * p.v_reset

/-- The whole recurrent step staged exactly in the spec's order (§4.1
steps 1-7), returning `z_new` and `(z_new, v, g_e, g_i)`. -/
def coba_lif_step_spec_order {n m : ℕ} (input_tensor : Fin n → ℚ)
    (state : CobaLIFState m) (input_weights : Fin m → Fin n → ℚ)
    (recurrent_weights : Fin m → Fin m → ℚ) (p : CobaLIFParameters)
    (dt : ℚ) : (Fin m → ℚ) × CobaLIFState m :=
  (coba_lif_spec_z input_tensor state input_weights recurrent_weights p dt,
   ⟨coba_lif_spec_z input_tensor state input_weights recurrent_weights p dt,
    coba_lif_spec_v_reset input_tensor state input_weights recurrent_weights p dt,
    coba_lif_spec_g_e input_tensor state input_weights recurrent_weights p dt,
    coba_lif_spec_g_i input_tensor state input_weights recurrent_weights p dt⟩)

/-- C1: for every input, state, weights, parameters and positive `dt`, the
source's `coba_lif_step` computes exactly the staged algorithm of the spec,
in the spec's order: decay, feed-forward drive, recurrent drive from the
previous `z`, voltage update from the previous `state.v` with the updated
conductances, threshold, reset, and returns `(z_new, (z_new, v, g_e, g_i))`. -/
theorem coba_lif_step_matches_spec_order {n m : ℕ} (input : Fin n → ℚ)
    (s : CobaLIFState m) (wi : Fin m → Fin n → ℚ) (wr : Fin m → Fin m → ℚ)
    (p : CobaLIFParameters) (dt : ℚ) (hdt : 0 < dt) :
    coba_lif_step input s wi wr p dt =
      coba_lif_step_spec_order input s wi wr p dt := by
  have he : coba_lif_g_e input s wi wr p dt =
      coba_lif_spec_g_e input s wi wr p dt := by
    funext i
    simp only [coba_lif_g_e, coba_lif_spec_g_e, linear, relu]
    ring
  have hi : coba_lif_g_i input s wi wr p dt =
      coba_lif_spec_g_i input s wi wr p dt := by
    funext i
    simp only [coba_lif_g_i, coba_lif_spec_g_i, linear, relu]
    ring
  have hv : coba_lif_v_decayed input s wi wr p dt =
      coba_lif_spec_v input s wi wr p dt := by
    funext i
    simp only [coba_lif_v_decayed, coba_lif_spec_v]
    rw [he, hi]
  have hz : coba_lif_z_new input s wi wr p dt =
      coba_lif_spec_z input s wi wr p dt := by
    funext i
    simp only [coba_lif_z_new, coba_lif_spec_z]
    rw [hv]
  have hvn : coba_lif_v_new input s wi wr p dt =
      coba_lif_spec_v_reset input s wi wr p dt := by
    funext i
    simp only [coba_lif_v_new, coba_lif_spec_v_reset]
    rw [hz, hv]
  simp only [coba_lif_step, coba_lif_step_spec_order]
  rw [he, hi, hz, hvn]

/-- Witness for C1 at a concrete input with `dt = 1/1000 > 0`. -/
theorem coba_lif_step_matches_spec_order_witness :
    0 < (1/1000 : ℚ) ∧
    coba_lif_step (fun _ : Fin 1 => 1)
        (⟨fun _ => 1, fun _ => -15, fun _ => 2, fun _ => 3⟩ : CobaLIFState 1)
        (fun _ _ => 4) (fun _ _ => -5) CobaLIFParameters.default (1/1000) =
      coba_lif_step_spec_order (fun _ : Fin 1 => 1)
        (⟨fun _ => 1, fun _ => -15, fun _ => 2, fun _ => 3⟩ : CobaLIFState 1)
        (fun _ _ => 4) (fun _ _ => -5) CobaLIFParameters.default (1/1000) :=
  ⟨by norm_num,
   coba_lif_step_matches_spec_order (fun _ : Fin 1 => 1)
     (⟨fun _ => 1, fun _ => -15, fun _ => 2, fun _ => 3⟩ : CobaLIFState 1)
     (fun _ _ => 4) (fun _ _ => -5) CobaLIFParameters.default (1/1000)
     (by norm_num)⟩

/-- C9: for elementwise non-negative input, `coba_lif_step` with identity
input weights, zero recurrent weights and zero previous spikes produces
exactly the same spike output and the same `v`, `g_e`, `g_i` components as
`coba_lif_feed_forward_step` on the corresponding feed-forward state. -/
theorem coba_lif_step_agrees_feed_forward {m : ℕ} (x v ge gi : Fin m → ℚ)
    (p : CobaLIFParameters) (dt : ℚ) (hx : ∀ j, 0 ≤ x j) :
    (coba_lif_step x (⟨fun _ => 0, v, ge, gi⟩ : CobaLIFState m)
        (fun a b => if a = b then 1 else 0) (fun _ _ => 0) p dt).1 =
      (coba_lif_feed_forward_step x
        (⟨v, ge, gi⟩ : CobaLIFFeedForwardState m) p dt).1 ∧
    (coba_lif_step x (⟨fun _ => 0, v, ge, gi⟩ : CobaLIFState m)
        (fun a b => if a = b then 1 else 0) (fun _ _ => 0) p dt).2.v =
      (coba_lif_feed_forward_step x
        (⟨v, ge, gi⟩ : CobaLIFFeedForwardState m) p dt).2.v ∧
    (coba_lif_step x (⟨fun _ => 0, v, ge, gi⟩ : CobaLIFState m)
        (fun a b => if a = b then 1 else 0) (fun _ _ => 0) p dt).2.g_e =
      (coba_lif_feed_forward_step x
        (⟨v, ge, gi⟩ : CobaLIFFeedForwardState m) p dt).2.g_e ∧
    (coba_lif_step x (⟨fun _ => 0, v, ge, gi⟩ : CobaLIFState m)
        (fun a b => if a = b then 1 else 0) (fun _ _ => 0) p dt).2.g_i =
      (coba_lif_feed_forward_step x
        (⟨v, ge, gi⟩ : CobaLIFFeedForwardState m) p dt).2.g_i := by
  have he : coba_lif_g_e x (⟨fun _ => 0, v, ge, gi⟩ : CobaLIFState m)
      (fun a b => if a = b then 1 else 0) (fun _ _ => 0) p dt =
      coba_lif_ff_g_e x (⟨v, ge, gi⟩ : CobaLIFFeedForwardState m) p dt := by
    funext i
    simp only [coba_lif_g_e, coba_lif_ff_g_e, linear, relu]
    rw [max_eq_left (hx i)]
    have h1 : ∀ j, max (if i = j then (1 : ℚ) else 0) 0 * x j =
        if i = j then x j else 0 := by
      intro j; by_cases h : i = j <;> simp [h]
    rw [Finset.sum_congr rfl fun j _ => h1 j, Finset.sum_ite_eq]
    simp
  have hi : coba_lif_g_i x (⟨fun _ => 0, v, ge, gi⟩ : CobaLIFState m)
      (fun a b => if a = b then 1 else 0) (fun _ _ => 0) p dt =
      coba_lif_ff_g_i x (⟨v, ge, gi⟩ : CobaLIFFeedForwardState m) p dt := by
    funext i
    simp only [coba_lif_g_i, coba_lif_ff_g_i, linear, relu]
    rw [max_eq_right (neg_nonpos.mpr (hx i))]
    have h1 : ∀ j, max (-(if i = j then (1 : ℚ) else 0)) 0 * x j = 0 := by
      intro j; by_cases h : i = j <;> simp [h]
    rw [Finset.sum_congr rfl fun j _ => h1 j]
    simp
  have hv : coba_lif_v_decayed x (⟨fun _ => 0, v, ge, gi⟩ : CobaLIFState m)
      (fun a b => if a = b then 1 else 0) (fun _ _ => 0) p dt =
      coba_lif_ff_v_decayed x (⟨v, ge, gi⟩ : CobaLIFFeedForwardState m) p dt := by
    funext i
    simp only [coba_lif_v_decayed, coba_lif_ff_v_decayed]
    rw [he, hi]
  have hz : coba_lif_z_new x (⟨fun _ => 0, v, ge, gi⟩ : CobaLIFState m)
      (fun a b => if a = b then 1 else 0) (fun _ _ => 0) p dt =
      coba_lif_ff_z_new x (⟨v, ge, gi⟩ : CobaLIFFeedForwardState m) p dt := by
    funext i
    simp only [coba_lif_z_new, coba_lif_ff_z_new]
    rw [hv]
  have hvn : coba_lif_v_new x (⟨fun _ => 0, v, ge, gi⟩ : CobaLIFState m)
      (fun a b => if a = b then 1 else 0) (fun _ _ => 0) p dt =
      coba_lif_ff_v_new x (⟨v, ge, gi⟩ : CobaLIFFeedForwardState m) p dt := by
    funext i
    simp only [coba_lif_v_new, coba_lif_ff_v_new]
    rw [hz, hv]
  exact ⟨hz, hvn, he, hi⟩

/-- Witness for C9 at a concrete non-negative input. -/
theorem coba_lif_step_agrees_feed_forward_witness :
    (∀ j : Fin 2, 0 ≤ (fun _ : Fin 2 => (7 : ℚ)) j) ∧
    (coba_lif_step (fun _ : Fin 2 => (7 : ℚ))
        (⟨fun _ => 0, fun _ => -15, fun _ => 1, fun _ => 2⟩ : CobaLIFState 2)
        (fun a b => if a = b then 1 else 0) (fun _ _ => 0)
        CobaLIFParameters.default (1/1000)).1 =
      (coba_lif_feed_forward_step (fun _ : Fin 2 => (7 : ℚ))
        (⟨fun _ => -15, fun _ => 1, fun _ => 2⟩ : CobaLIFFeedForwardState 2)
        CobaLIFParameters.default (1/1000)).1 := by
  have hx : ∀ j : Fin 2, 0 ≤ (fun _ : Fin 2 => (7 : ℚ)) j := fun _ => by norm_num
  exact ⟨hx, (coba_lif_step_agrees_feed_forward (fun _ : Fin 2 => (7 : ℚ))
    (fun _ => -15) (fun _ => 1) (fun _ => 2)
    CobaLIFParameters.default (1/1000) hx).1⟩

/-- `relu` of a non-negative number is itself. -/
theorem relu_of_nonneg {x : ℚ} (h : 0 ≤ x) : relu x = x := max_eq_left h

/-- `relu` of a non-positive number is `0`. -/
theorem relu_of_nonpos {x : ℚ} (h : x ≤ 0) : relu x = 0 := max_eq_right h

/-- `relu` is non-negative. -/
theorem relu_nonneg (x : ℚ) : 0 ≤ relu x := le_max_right x 0

/-- Splitting off the contribution of one weight entry: for any elementwise
transform `f` with `f 0 = 0`, zeroing entry `(i, j)` of the weight matrix
removes exactly `f (W i j) * x j` from row `i` of the linear map. -/
theorem linear_map_zero_entry {n m : ℕ} (f : ℚ → ℚ) (hf : f 0 = 0)
    (W : Fin m → Fin n → ℚ) (x : Fin n → ℚ) (i : Fin m) (j : Fin n) :
    linear x (fun a b => f (W a b)) i =
      linear x (fun a b => f (if a = i ∧ b = j then 0 else W a b)) i
        + f (W i j) * x j := by
  unfold linear
  have key : ∀ g : Fin n → ℚ, ∑ b, g b = g j + ∑ b ∈ univ.erase j, g b :=
    fun g => (Finset.add_sum_erase univ g (Finset.mem_univ j)).symm
  rw [key (fun b => f (W i b) * x b),
      key (fun b => f (if i = i ∧ b = j then (0 : ℚ) else W i b) * x b)]
  have h1 : f (if i = i ∧ j = j then (0 : ℚ) else W i j) = 0 := by simp [hf]
  have h2 : ∀ b ∈ univ.erase j,
      f (if i = i ∧ b = j then (0 : ℚ) else W i b) * x b = f (W i b) * x b := by
    intro b hb
    rcases Finset.mem_erase.mp hb with ⟨hbj, _⟩
    simp [hbj]
  rw [Finset.sum_congr rfl h2, h1]
  ring

/-- Row `k` of a linear map only depends on row `k` of the weights. -/
theorem linear_congr_row {n m : ℕ} (W W2 : Fin m → Fin n → ℚ) (x : Fin n → ℚ)
    (k : Fin m) (h : ∀ b, W k b = W2 k b) : linear x W k = linear x W2 k := by
  simp only [linear]
  exact Finset.sum_congr rfl fun b _ => by rw [h b]

/-- C3: sign routing.  In the recurrent step, with non-negative spike input
and non-negative previous spikes, a strictly positive weight entry `(i,j)`
of `input_weights` (resp. `(i,r)` of `recurrent_weights`) contributes
exactly its non-negative weighted input to `g_e` and nothing to `g_i`
(zeroing it changes no `g_i` component), and a strictly negative entry
contributes exactly its non-negative magnitude-weighted input to `g_i` and
nothing to `g_e`.  In the feed-forward step, a strictly positive input
entry adds itself to `g_e` only and a strictly negative entry adds its
magnitude to `g_i` only. -/
theorem coba_lif_sign_routing {n m : ℕ} (input : Fin n → ℚ)
    (s : CobaLIFState m) (wi : Fin m → Fin n → ℚ) (wr : Fin m → Fin m → ℚ)
    (x : Fin m → ℚ) (t : CobaLIFFeedForwardState m) (p : CobaLIFParameters)
    (dt : ℚ) (i : Fin m) (j : Fin n) (r : Fin m)
    (hx : ∀ b, 0 ≤ input b) (hz : ∀ b, 0 ≤ s.z b) :
    (0 < wi i j →
      ((coba_lif_step input s wi wr p dt).2.g_e i =
          (coba_lif_step input s
            (fun a b => if a = i ∧ b = j then 0 else wi a b) wr p dt).2.g_e i
            + wi i j * input j ∧
        0 ≤ wi i j * input j) ∧
      ∀ k, (coba_lif_step input s wi wr p dt).2.g_i k =
        (coba_lif_step input s
          (fun a b => if a = i ∧ b = j then 0 else wi a b) wr p dt).2.g_i k) ∧
    (wi i j < 0 →
      ((coba_lif_step input s wi wr p dt).2.g_i i =
          (coba_lif_step input s
            (fun a b => if a = i ∧ b = j then 0 else wi a b) wr p dt).2.g_i i
            + -wi i j * input j ∧
        0 ≤ -wi i j * input j) ∧
      ∀ k, (coba_lif_step input s wi wr p dt).2.g_e k =
        (coba_lif_step input s
          (fun a b => if a = i ∧ b = j then 0 else wi a b) wr p dt).2.g_e k) ∧
    (0 < wr i r →
      ((coba_lif_step input s wi wr p dt).2.g_e i =
          (coba_lif_step input s wi
            (fun a b => if a = i ∧ b = r then 0 else wr a b) p dt).2.g_e i
            + wr i r * s.z r ∧
        0 ≤ wr i r * s.z r) ∧
      ∀ k, (coba_lif_step input s wi wr p dt).2.g_i k =
        (coba_lif_step input s wi
          (fun a b => if a = i ∧ b = r then 0 else wr a b) p dt).2.g_i k) ∧
    (wr i r < 0 →
      ((coba_lif_step input s wi wr p dt).2.g_i i =
          (coba_lif_step input s wi
            (fun a b => if a = i ∧ b = r then 0 else wr a b) p dt).2.g_i i
            + -wr i r * s.z r ∧
        0 ≤ -wr i r * s.z r) ∧
      ∀ k, (coba_lif_step input s wi wr p dt).2.g_e k =
        (coba_lif_step input s wi
          (fun a b => if a = i ∧ b = r then 0 else wr a b) p dt).2.g_e k) ∧
    (0 < x i →
      (coba_lif_feed_forward_step x t p dt).2.g_e i =
        (t.g_e i + (-dt * p.tau_syn_exc_inv * t.g_e i)) + x i ∧
      (coba_lif_feed_forward_step x t p dt).2.g_i i =
        t.g_i i + (-dt * p.tau_syn_inh_inv * t.g_i i)) ∧
    (x i < 0 →
      (coba_lif_feed_forward_step x t p dt).2.g_e i =
        t.g_e i + (-dt * p.tau_syn_exc_inv * t.g_e i) ∧
      (coba_lif_feed_forward_step x t p dt).2.g_i i =
        (t.g_i i + (-dt * p.tau_syn_inh_inv * t.g_i i)) + -x i) := by
  refine ⟨fun h => ⟨⟨?_, mul_nonneg h.le (hx j)⟩, fun k => ?_⟩,
    fun h => ⟨⟨?_, mul_nonneg (neg_nonneg.mpr h.le) (hx j)⟩, fun k => ?_⟩,
    fun h => ⟨⟨?_, mul_nonneg h.le (hz r)⟩, fun k => ?_⟩,
    fun h => ⟨⟨?_, mul_nonneg (neg_nonneg.mpr h.le) (hz r)⟩, fun k => ?_⟩,
    fun h => ⟨?_, ?_⟩, fun h => ⟨?_, ?_⟩⟩
  · simp only [coba_lif_step, coba_lif_g_e]
    rw [linear_map_zero_entry relu (relu_of_nonpos le_rfl) wi input i j,
      relu_of_nonneg h.le]
    ring
  · simp only [coba_lif_step, coba_lif_g_i]
    by_cases hk : k = i
    · subst hk
      have hsplit := linear_map_zero_entry (fun w => relu (-w))
        (by simp [relu]) wi input k j
      simp only at hsplit
      rw [hsplit, relu_of_nonpos (neg_nonpos.mpr h.le)]
      ring
    · have hrow : linear input (fun a b => relu (-wi a b)) k =
          linear input (fun a b =>
            relu (-(if a = i ∧ b = j then 0 else wi a b))) k := by
        refine linear_congr_row _ _ _ _ fun b => ?_
        simp [hk]
      rw [hrow]
  · simp only [coba_lif_step, coba_lif_g_i]
    have hsplit := linear_map_zero_entry (fun w => relu (-w))
      (by simp [relu]) wi input i j
    simp only at hsplit
    rw [hsplit, relu_of_nonneg (neg_nonneg.mpr h.le)]
    ring
  · simp only [coba_lif_step, coba_lif_g_e]
    by_cases hk : k = i
    · subst hk
      rw [linear_map_zero_entry relu (relu_of_nonpos le_rfl) wi input k j,
        relu_of_nonpos h.le]
      ring
    · have hrow : linear input (fun a b => relu (wi a b)) k =
          linear input (fun a b =>
            relu (if a = i ∧ b = j then 0 else wi a b)) k := by
        refine linear_congr_row _ _ _ _ fun b => ?_
        simp [hk]
      rw [hrow]
  · simp only [coba_lif_step, coba_lif_g_e]
    rw [linear_map_zero_entry relu (relu_of_nonpos le_rfl) wr s.z i r,
      relu_of_nonneg h.le]
    ring
  · simp only [coba_lif_step, coba_lif_g_i]
    by_cases hk : k = i
    · subst hk
      have hsplit := linear_map_zero_entry (fun w => relu (-w))
        (by simp [relu]) wr s.z k r
      simp only at hsplit
      rw [hsplit, relu_of_nonpos (neg_nonpos.mpr h.le)]
      ring
    · have hrow : linear s.z (fun a b => relu (-wr a b)) k =
          linear s.z (fun a b =>
            relu (-(if a = i ∧ b = r then 0 else wr a b))) k := by
        refine linear_congr_row _ _ _ _ fun b => ?_
        simp [hk]
      rw [hrow]
  · simp only [coba_lif_step, coba_lif_g_i]
    have hsplit := linear_map_zero_entry (fun w => relu (-w))
      (by simp [relu]) wr s.z i r
    simp only at hsplit
    rw [hsplit, relu_of_nonneg (neg_nonneg.mpr h.le)]
    ring
  · simp only [coba_lif_step, coba_lif_g_e]
    by_cases hk : k = i
    · subst hk
      rw [linear_map_zero_entry relu (relu_of_nonpos le_rfl) wr s.z k r,
        relu_of_nonpos h.le]
      ring
    · have hrow : linear s.z (fun a b => relu (wr a b)) k =
          linear s.z (fun a b =>
            relu (if a = i ∧ b = r then 0 else wr a b)) k := by
        refine linear_congr_row _ _ _ _ fun b => ?_
        simp [hk]
      rw [hrow]
  · simp only [coba_lif_feed_forward_step, coba_lif_ff_g_e]
    rw [relu_of_nonneg h.le]
  · simp only [coba_lif_feed_forward_step, coba_lif_ff_g_i]
    rw [relu_of_nonpos (neg_nonpos.mpr h.le)]
    ring
  · simp only [coba_lif_feed_forward_step, coba_lif_ff_g_e]
    rw [relu_of_nonpos h.le]
    ring
  · simp only [coba_lif_feed_forward_step, coba_lif_ff_g_i]
    rw [relu_of_nonneg (neg_nonneg.mpr h.le)]

/-- Witness for C3: one neuron, input spike `4`, previous spike `1`,
input weight `2 > 0` (adds `2*4` to `g_e`), recurrent weight `-3 < 0`
(adds `3*1` to `g_i`). -/
theorem coba_lif_sign_routing_witness :
    (0 : ℚ) < 2 ∧ (-3 : ℚ) < 0 ∧
    ((coba_lif_step (fun _ : Fin 1 => 4)
        (⟨fun _ => 1, fun _ => -15, fun _ => 0, fun _ => 0⟩ : CobaLIFState 1)
        (fun _ _ => 2) (fun _ _ => -3) CobaLIFParameters.default
        (1/1000)).2.g_e 0 =
      (coba_lif_step (fun _ : Fin 1 => 4)
        (⟨fun _ => 1, fun _ => -15, fun _ => 0, fun _ => 0⟩ : CobaLIFState 1)
        (fun a b => if a = 0 ∧ b = 0 then 0 else 2) (fun _ _ => -3)
        CobaLIFParameters.default (1/1000)).2.g_e 0 + 2 * 4) ∧
    ((coba_lif_step (fun _ : Fin 1 => 4)
        (⟨fun _ => 1, fun _ => -15, fun _ => 0, fun _ => 0⟩ : CobaLIFState 1)
        (fun _ _ => 2) (fun _ _ => -3) CobaLIFParameters.default
        (1/1000)).2.g_i 0 =
      (coba_lif_step (fun _ : Fin 1 => 4)
        (⟨fun _ => 1, fun _ => -15, fun _ => 0, fun _ => 0⟩ : CobaLIFState 1)
        (fun _ _ => 2) (fun a b => if a = 0 ∧ b = 0 then 0 else -3)
        CobaLIFParameters.default (1/1000)).2.g_i 0 + -(-3) * 1) := by
  have hx : ∀ b : Fin 1, 0 ≤ (fun _ : Fin 1 => (4 : ℚ)) b := fun _ => by norm_num
  have hz : ∀ b : Fin 1,
      0 ≤ (⟨fun _ => 1, fun _ => -15, fun _ => 0, fun _ => 0⟩ :
        CobaLIFState 1).z b := fun _ => by norm_num
  have hmain := coba_lif_sign_routing (fun _ : Fin 1 => 4)
    (⟨fun _ => 1, fun _ => -15, fun _ => 0, fun _ => 0⟩ : CobaLIFState 1)
    (fun _ _ => 2) (fun _ _ => -3) (fun _ : Fin 1 => 4)
    (⟨fun _ => -15, fun _ => 0, fun _ => 0⟩ : CobaLIFFeedForwardState 1)
    CobaLIFParameters.default (1/1000) 0 0 0 hx hz
  exact ⟨by norm_num, by norm_num, (hmain.1 (by norm_num)).1.1,
    ((hmain.2.2.2.1 (by norm_num)).1.1)⟩

/-- With zero conductances, zero input and zero weights, the Euler voltage
update contracts the voltage toward `v_rest` by the factor
`lam = dt * c_m_inv * g_l`; for `0 ≤ lam ≤ 1` the result stays weakly
between the old voltage and `v_rest`, and stays below `v_thresh` when both
are below it. -/
theorem euler_relax_scalar (v0 vrest vthresh lam : ℚ) (h0 : 0 ≤ lam)
    (h1 : lam ≤ 1) (hv : v0 < vthresh) (hr : vrest < vthresh) :
    min v0 vrest ≤ v0 + lam * (vrest - v0) ∧
      v0 + lam * (vrest - v0) ≤ max v0 vrest ∧
      v0 + lam * (vrest - v0) < vthresh := by
  rcases le_total v0 vrest with hc | hc
  · rw [min_eq_left hc, max_eq_right hc]
    exact ⟨by nlinarith, by nlinarith, by nlinarith⟩
  · rw [min_eq_right hc, max_eq_left hc]
    exact ⟨by nlinarith, by nlinarith, by nlinarith⟩

/-- Counterexample to C5 as stated (quantifying over all parameter sets and
step sizes).  First instance: `dt * c_m_inv * g_l = 3` overshoots past
`v_rest`: with `v_rest = 0`, `v_reset = -1 < v = 1 < v_thresh = 10`, zero
weights/input/conductances, the returned voltage is `-2`, not weakly
between `1` and `0`.  Second instance: `v_rest = 20` above
`v_thresh = 10`: from `v = 9` the voltage relaxes toward rest up to `20`
and a spike is emitted, contradicting "no spike". -/
theorem coba_lif_relaxation_counterexample :
    ((-1 : ℚ) < 1 ∧ (1 : ℚ) < 10 ∧
      ¬(min (1 : ℚ) 0 ≤
          (coba_lif_step (fun _ : Fin 1 => 0)
            (⟨fun _ => 0, fun _ => 1, fun _ => 0, fun _ => 0⟩ : CobaLIFState 1)
            (fun _ _ => 0) (fun _ _ => 0)
            (⟨0, 0, 1, 3, 0, 0, 0, -1, 10, "heaviside", 0⟩ :
              CobaLIFParameters) 1).2.v 0 ∧
        (coba_lif_step (fun _ : Fin 1 => 0)
            (⟨fun _ => 0, fun _ => 1, fun _ => 0, fun _ => 0⟩ : CobaLIFState 1)
            (fun _ _ => 0) (fun _ _ => 0)
            (⟨0, 0, 1, 3, 0, 0, 0, -1, 10, "heaviside", 0⟩ :
              CobaLIFParameters) 1).2.v 0 ≤ max (1 : ℚ) 0)) ∧
    ((0 : ℚ) < 9 ∧ (9 : ℚ) < 10 ∧
      (coba_lif_step (fun _ : Fin 1 => 0)
          (⟨fun _ => 0, fun _ => 9, fun _ => 0, fun _ => 0⟩ : CobaLIFState 1)
          (fun _ _ => 0) (fun _ _ => 0)
          (⟨0, 0, 1, 1, 0, 0, 20, 0, 10, "heaviside", 0⟩ :
            CobaLIFParameters) 1).1 0 = 1) := by
  refine ⟨⟨by norm_num, by norm_num, ?_⟩, by norm_num, by norm_num, ?_⟩ <;>
    norm_num [coba_lif_step, coba_lif_v_new, coba_lif_z_new, coba_lif_v_decayed,
      coba_lif_g_e, coba_lif_g_i, linear, relu, threshold, Fin.sum_univ_one]

/-- C5 amended: with all weights zero, all-zero input, zero conductances at
`i`, and additionally `0 ≤ dt * c_m_inv * g_l ≤ 1` and
`v_rest < v_thresh`, for any voltage strictly between `v_reset` and
`v_thresh` the returned voltage of either step lies weakly between the old
voltage and `v_rest` and no spike is emitted. -/
theorem coba_lif_relaxation_amended {n m : ℕ} (s : CobaLIFState m)
    (t : CobaLIFFeedForwardState m) (p : CobaLIFParameters) (dt : ℚ)
    (i : Fin m)
    (hlam0 : 0 ≤ dt * p.c_m_inv * p.g_l) (hlam1 : dt * p.c_m_inv * p.g_l ≤ 1)
    (hrest : p.v_rest < p.v_thresh)
    (hge : s.g_e i = 0) (hgi : s.g_i i = 0)
    (hlo : p.v_reset < s.v i) (hhi : s.v i < p.v_thresh)
    (hge' : t.g_e i = 0) (hgi' : t.g_i i = 0)
    (hlo' : p.v_reset < t.v i) (hhi' : t.v i < p.v_thresh) :
    (min (s.v i) p.v_rest ≤
        (coba_lif_step (fun _ : Fin n => 0) s (fun _ _ => 0) (fun _ _ => 0)
          p dt).2.v i ∧
      (coba_lif_step (fun _ : Fin n => 0) s (fun _ _ => 0) (fun _ _ => 0)
          p dt).2.v i ≤ max (s.v i) p.v_rest ∧
      (coba_lif_step (fun _ : Fin n => 0) s (fun _ _ => 0) (fun _ _ => 0)
          p dt).1 i = 0) ∧
    (min (t.v i) p.v_rest ≤
        (coba_lif_feed_forward_step (fun _ => 0) t p dt).2.v i ∧
      (coba_lif_feed_forward_step (fun _ => 0) t p dt).2.v i ≤
        max (t.v i) p.v_rest ∧
      (coba_lif_feed_forward_step (fun _ => 0) t p dt).1 i = 0) := by
  have hge0 : coba_lif_g_e (fun _ : Fin n => 0) s (fun _ _ => 0)
      (fun _ _ => 0) p dt i = 0 := by
    simp only [coba_lif_g_e, linear, relu, max_self, zero_mul, mul_zero,
      Finset.sum_const_zero, add_zero]
    rw [hge]; ring
  have hgi0 : coba_lif_g_i (fun _ : Fin n => 0) s (fun _ _ => 0)
      (fun _ _ => 0) p dt i = 0 := by
    simp only [coba_lif_g_i, linear, relu, neg_zero, max_self, zero_mul,
      mul_zero, Finset.sum_const_zero, add_zero]
    rw [hgi]; ring
  have hv : coba_lif_v_decayed (fun _ : Fin n => 0) s (fun _ _ => 0)
      (fun _ _ => 0) p dt i =
      s.v i + dt * p.c_m_inv * p.g_l * (p.v_rest - s.v i) := by
    simp only [coba_lif_v_decayed]
    rw [hge0, hgi0]; ring
  have hrel := euler_relax_scalar (s.v i) p.v_rest p.v_thresh
    (dt * p.c_m_inv * p.g_l) hlam0 hlam1 hhi hrest
  have hz : coba_lif_z_new (fun _ : Fin n => 0) s (fun _ _ => 0)
      (fun _ _ => 0) p dt i = 0 := by
    simp only [coba_lif_z_new, threshold]
    rw [hv, if_neg]
    exact not_le.mpr (by linarith [hrel.2.2])
  have hge0f : coba_lif_ff_g_e (fun _ => 0) t p dt i = 0 := by
    simp only [coba_lif_ff_g_e, relu, max_self, add_zero]
    rw [hge']; ring
  have hgi0f : coba_lif_ff_g_i (fun _ => 0) t p dt i = 0 := by
    simp only [coba_lif_ff_g_i, relu, neg_zero, max_self, add_zero]
    rw [hgi']; ring
  have hvf : coba_lif_ff_v_decayed (fun _ => 0) t p dt i =
      t.v i + dt * p.c_m_inv * p.g_l * (p.v_rest - t.v i) := by
    simp only [coba_lif_ff_v_decayed]
    rw [hge0f, hgi0f]; ring
  have hrelf := euler_relax_scalar (t.v i) p.v_rest p.v_thresh
    (dt * p.c_m_inv * p.g_l) hlam0 hlam1 hhi' hrest
  have hzf : coba_lif_ff_z_new (fun _ => 0) t p dt i = 0 := by
    simp only [coba_lif_ff_z_new, threshold]
    rw [hvf, if_neg]
    exact not_le.mpr (by linarith [hrelf.2.2])
  refine ⟨⟨?_, ?_, hz⟩, ?_, ?_, hzf⟩
  · simp only [coba_lif_step, coba_lif_v_new]
    rw [hz, hv]
    simpa using hrel.1
  · simp only [coba_lif_step, coba_lif_v_new]
    rw [hz, hv]
    simpa using hrel.2.1
  · simp only [coba_lif_feed_forward_step, coba_lif_ff_v_new]
    rw [hzf, hvf]
    simpa using hrelf.1
  · simp only [coba_lif_feed_forward_step, coba_lif_ff_v_new]
    rw [hzf, hvf]
    simpa using hrelf.2.1

/-- Witness for the amended C5: default parameters, `dt = 1/1000`
(`dt * c_m_inv * g_l = 1/800`), voltage `-30` strictly between
`v_reset = -70` and `v_thresh = -10`. -/
theorem coba_lif_relaxation_amended_witness :
    (0 ≤ (1/1000 : ℚ) * CobaLIFParameters.default.c_m_inv *
        CobaLIFParameters.default.g_l ∧
      (1/1000 : ℚ) * CobaLIFParameters.default.c_m_inv *
        CobaLIFParameters.default.g_l ≤ 1 ∧
      CobaLIFParameters.default.v_rest < CobaLIFParameters.default.v_thresh ∧
      CobaLIFParameters.default.v_reset < (-30 : ℚ) ∧
      (-30 : ℚ) < CobaLIFParameters.default.v_thresh) ∧
    min (-30 : ℚ) CobaLIFParameters.default.v_rest ≤
      (coba_lif_step (fun _ : Fin 1 => 0)
        (⟨fun _ => 0, fun _ => -30, fun _ => 0, fun _ => 0⟩ : CobaLIFState 1)
        (fun _ _ => 0) (fun _ _ => 0) CobaLIFParameters.default
        (1/1000)).2.v 0 ∧
    (coba_lif_step (fun _ : Fin 1 => 0)
        (⟨fun _ => 0, fun _ => -30, fun _ => 0, fun _ => 0⟩ : CobaLIFState 1)
        (fun _ _ => 0) (fun _ _ => 0) CobaLIFParameters.default
        (1/1000)).1 0 = 0 := by
  have hmain := coba_lif_relaxation_amended (n := 1)
    (⟨fun _ => 0, fun _ => -30, fun _ => 0, fun _ => 0⟩ : CobaLIFState 1)
    (⟨fun _ => -30, fun _ => 0, fun _ => 0⟩ : CobaLIFFeedForwardState 1)
    CobaLIFParameters.default (1/1000) 0
    (by norm_num [CobaLIFParameters.default])
    (by norm_num [CobaLIFParameters.default])
    (by norm_num [CobaLIFParameters.default]) rfl rfl
    (by norm_num [CobaLIFParameters.default])
    (by norm_num [CobaLIFParameters.default]) rfl rfl
    (by norm_num [CobaLIFParameters.default])
    (by norm_num [CobaLIFParameters.default])
  exact ⟨⟨by norm_num [CobaLIFParameters.default],
    by norm_num [CobaLIFParameters.default],
    by norm_num [CobaLIFParameters.default],
    by norm_num [CobaLIFParameters.default],
    by norm_num [CobaLIFParameters.default]⟩,
    hmain.1.1, hmain.1.2.2⟩

/-- Counterexample to C10 as stated: the listed hypotheses do not constrain
the previous spike state `z`.  With `g_e = g_i = 0`, all-zero (non-negative)
input, `dt * tau_inv = 0 ∈ [0,1]`, a recurrent weight `1` and previous
spike `z = -1`, the recurrent step returns `g_e = -1 < 0`. -/
theorem coba_lif_conductance_nonneg_counterexample :
    (∀ b : Fin 1, 0 ≤ (fun _ : Fin 1 => (0 : ℚ)) b) ∧
    (0 : ℚ) ≤ 0 ∧
    0 ≤ (1 : ℚ) *
      (⟨0, 0, 0, 0, 0, 0, 0, 0, 0, "heaviside", 0⟩ :
        CobaLIFParameters).tau_syn_exc_inv ∧
    (1 : ℚ) *
      (⟨0, 0, 0, 0, 0, 0, 0, 0, 0, "heaviside", 0⟩ :
        CobaLIFParameters).tau_syn_exc_inv ≤ 1 ∧
    0 ≤ (1 : ℚ) *
      (⟨0, 0, 0, 0, 0, 0, 0, 0, 0, "heaviside", 0⟩ :
        CobaLIFParameters).tau_syn_inh_inv ∧
    (1 : ℚ) *
      (⟨0, 0, 0, 0, 0, 0, 0, 0, 0, "heaviside", 0⟩ :
        CobaLIFParameters).tau_syn_inh_inv ≤ 1 ∧
    (coba_lif_step (fun _ : Fin 1 => 0)
      (⟨fun _ => -1, fun _ => 0, fun _ => 0, fun _ => 0⟩ : CobaLIFState 1)
      (fun _ _ => 0) (fun _ _ => 1)
      (⟨0, 0, 0, 0, 0, 0, 0, 0, 0, "heaviside", 0⟩ : CobaLIFParameters)
      1).2.g_e 0 < 0 := by
  refine ⟨fun _ => le_refl 0, by norm_num, by norm_num, by norm_num,
    by norm_num, by norm_num, ?_⟩
  norm_num [coba_lif_step, coba_lif_g_e, linear, relu, Fin.sum_univ_one]

/-- C10 amended: conductance non-negativity is an invariant of both steps
once the previous spike state `z` is also elementwise non-negative: with
`g_e, g_i ≥ 0`, non-negative input, non-negative `z`, and
`0 ≤ dt * tau_inv ≤ 1` for both synaptic time constants, the returned
`g_e` and `g_i` are non-negative. -/
theorem coba_lif_conductance_nonneg_amended {n m : ℕ} (input : Fin n → ℚ)
    (s : CobaLIFState m) (wi : Fin m → Fin n → ℚ) (wr : Fin m → Fin m → ℚ)
    (x : Fin m → ℚ) (t : CobaLIFFeedForwardState m) (p : CobaLIFParameters)
    (dt : ℚ) (i : Fin m)
    (hx : ∀ b, 0 ≤ input b) (hz : ∀ b, 0 ≤ s.z b) (hxx : ∀ b, 0 ≤ x b)
    (hge : 0 ≤ s.g_e i) (hgi : 0 ≤ s.g_i i)
    (hge' : 0 ≤ t.g_e i) (hgi' : 0 ≤ t.g_i i)
    (he0 : 0 ≤ dt * p.tau_syn_exc_inv) (he1 : dt * p.tau_syn_exc_inv ≤ 1)
    (hi0 : 0 ≤ dt * p.tau_syn_inh_inv) (hi1 : dt * p.tau_syn_inh_inv ≤ 1) :
    0 ≤ (coba_lif_step input s wi wr p dt).2.g_e i ∧
    0 ≤ (coba_lif_step input s wi wr p dt).2.g_i i ∧
    0 ≤ (coba_lif_feed_forward_step x t p dt).2.g_e i ∧
    0 ≤ (coba_lif_feed_forward_step x t p dt).2.g_i i := by
  have hlin : ∀ (k : ℕ) (y : Fin k → ℚ) (W : Fin m → Fin k → ℚ),
      (∀ b, 0 ≤ y b) → 0 ≤ linear y (fun a b => relu (W a b)) i := by
    intro k y W hy
    simp only [linear]
    exact Finset.sum_nonneg fun b _ => mul_nonneg (relu_nonneg _) (hy b)
  refine ⟨?_, ?_, ?_, ?_⟩
  · simp only [coba_lif_step, coba_lif_g_e]
    have h1 := hlin n input (fun a b => wi a b) hx
    have h2 := hlin m s.z (fun a b => wr a b) hz
    have hdec : 0 ≤ s.g_e i + (-dt * p.tau_syn_exc_inv * s.g_e i) := by
      nlinarith
    exact add_nonneg (add_nonneg hdec h1) h2
  · simp only [coba_lif_step, coba_lif_g_i]
    have h1 := hlin n input (fun a b => -wi a b) hx
    have h2 := hlin m s.z (fun a b => -wr a b) hz
    have hdec : 0 ≤ s.g_i i + (-dt * p.tau_syn_inh_inv * s.g_i i) := by
      nlinarith
    exact add_nonneg (add_nonneg hdec h1) h2
  · simp only [coba_lif_feed_forward_step, coba_lif_ff_g_e]
    have hdec : 0 ≤ t.g_e i + (-dt * p.tau_syn_exc_inv * t.g_e i) := by
      nlinarith
    exact add_nonneg hdec (relu_nonneg _)
  · simp only [coba_lif_feed_forward_step, coba_lif_ff_g_i]
    have hdec : 0 ≤ t.g_i i + (-dt * p.tau_syn_inh_inv * t.g_i i) := by
      nlinarith
    exact add_nonneg hdec (relu_nonneg _)

/-- Witness for the amended C10: default parameters, `dt = 1/1000`,
spikes `1`, conductances `2` and `3`, mixed-sign weights. -/
theorem coba_lif_conductance_nonneg_amended_witness :
    ((0 : ℚ) ≤ 2 ∧ (0 : ℚ) ≤ 3 ∧
      0 ≤ (1/1000 : ℚ) * CobaLIFParameters.default.tau_syn_exc_inv ∧
      (1/1000 : ℚ) * CobaLIFParameters.default.tau_syn_exc_inv ≤ 1 ∧
      0 ≤ (1/1000 : ℚ) * CobaLIFParameters.default.tau_syn_inh_inv ∧
      (1/1000 : ℚ) * CobaLIFParameters.default.tau_syn_inh_inv ≤ 1) ∧
    0 ≤ (coba_lif_step (fun _ : Fin 1 => 1)
        (⟨fun _ => 1, fun _ => -15, fun _ => 2, fun _ => 3⟩ : CobaLIFState 1)
        (fun _ _ => 4) (fun _ _ => -5) CobaLIFParameters.default
        (1/1000)).2.g_e 0 ∧
    0 ≤ (coba_lif_step (fun _ : Fin 1 => 1)
        (⟨fun _ => 1, fun _ => -15, fun _ => 2, fun _ => 3⟩ : CobaLIFState 1)
        (fun _ _ => 4) (fun _ _ => -5) CobaLIFParameters.default
        (1/1000)).2.g_i 0 := by
  have hmain := coba_lif_conductance_nonneg_amended (fun _ : Fin 1 => 1)
    (⟨fun _ => 1, fun _ => -15, fun _ => 2, fun _ => 3⟩ : CobaLIFState 1)
    (fun _ _ => 4) (fun _ _ => -5) (fun _ : Fin 1 => 1)
    (⟨fun _ => -15, fun _ => 2, fun _ => 3⟩ : CobaLIFFeedForwardState 1)
    CobaLIFParameters.default (1/1000) 0
    (fun _ => by norm_num) (fun _ => by norm_num) (fun _ => by norm_num)
    (by norm_num) (by norm_num) (by norm_num) (by norm_num)
    (by norm_num [CobaLIFParameters.default])
    (by norm_num [CobaLIFParameters.default])
    (by norm_num [CobaLIFParameters.default])
    (by norm_num [CobaLIFParameters.default])
  exact ⟨⟨by norm_num, by norm_num,
    by norm_num [CobaLIFParameters.default],
    by norm_num [CobaLIFParameters.default],
    by norm_num [CobaLIFParameters.default],
    by norm_num [CobaLIFParameters.default]⟩, hmain.1, hmain.2.1⟩
